import Mathlib

/-!
Shallow embedding of `my_agent.py` (class `UpgradedAgent`): the turn-taking
arbiter for a spoken-dialogue agent.

Modelling choices:
* Python strings are modelled as `List Char` (`Str`); `str.strip()`,
  `str.lower()`, `str.split()` and the substring operator `in` become
  structural recursions (`py_strip`, `py_lower`, `py_split_ws`,
  `substr_of`) so every definition evaluates inside the kernel.  ASCII
  case folding and the ASCII whitespace set stand in for Python's Unicode
  versions; none of the configured phrases or claims depend on non-ASCII
  characters.
* Floats (confidence, timestamps) are modelled as rationals.
* The mutable instance state (`is_agent_speaking`, `last_user_speech_time`,
  `track_to_participant`, `active_speaker`) becomes an explicit
  `AgentState` record threaded through the handler.
* The two `time.time()` calls inside `on_transcription_event` (line 143
  and line 182 of the source) become the explicit clock parameters `t1`
  and `t2`.
* Observable effects — the `tts.stop_output()` call, the
  `on_tts_interrupted` transition, the hand-off to `_handle_user_input`
  (the dispatch to the dialogue consumer), and the simulated reply's TTS
  lifecycle — are recorded in a trace of `Action`s returned next to the
  updated state.  The `try/except` around `tts.stop_output()` is modelled
  by a `stopRaises` flag: the exception is swallowed either way, so the
  flag only records whether the stop call failed.
-/

namespace UpgradedAgent

/-- A Python string, as its list of characters. -/
abbrev Str := List Char

/-- Python `str.lower()` (ASCII case folding). -/
def py_lower (s : Str) : Str := s.map Char.toLower

/-- Python `str.strip()`: drop leading and trailing whitespace. -/
def py_strip (s : Str) : Str :=
  ((s.dropWhile Char.isWhitespace).reverse.dropWhile Char.isWhitespace).reverse

/-- Python substring containment `p in s`: `p` occurs contiguously in `s`
(the empty pattern occurs in every string). -/
def substr_of : Str → Str → Bool
  | p, [] => p.isEmpty
  | p, c :: cs => p.isPrefixOf (c :: cs) || substr_of p cs

/-- Accumulator-based worker for `py_split_ws`; `acc` holds the current
in-progress word reversed. -/
def split_ws_aux : Str → Str → List Str
  | [], acc => if acc.isEmpty then [] else [acc.reverse]
  | c :: cs, acc =>
      if c.isWhitespace then
        if acc.isEmpty then split_ws_aux cs [] else acc.reverse :: split_ws_aux cs []
      else split_ws_aux cs (c :: acc)

/-- Python `str.split()` with no argument: the maximal runs of
non-whitespace characters, so no empty pieces and no leading/trailing
artifacts. -/
def py_split_ws (s : Str) : List Str := split_ws_aux s []

/-- A word-level ASR annotation.  In the source a token is a dict; the code
reads it with `t.get("text", "")` and `t.get("type", "word")`, so both keys
are optional and we keep them as `Option` to model absent keys. -/
structure Token where
  text : Option Str
  type : Option Str
deriving DecidableEq, Repr

/-- The `meta` dict passed to `on_transcription_event`.  Keys the handler
reads: `confidence`, `tokens`, `track_id`, `speaker_id`, `participant`,
`speaker`; all optional. -/
structure Meta where
  confidence : Option ℚ
  tokens : Option (List Token)
  track_id : Option Str
  speaker_id : Option Str
  participant : Option Str
  speaker : Option Str
deriving DecidableEq, Repr

/-- Mutable instance state of `UpgradedAgent` that the handler touches. -/
structure AgentState where
  is_agent_speaking : Bool
  last_user_speech_time : ℚ
  track_to_participant : List (Str × Str)
  active_speaker : Option Str
deriving DecidableEq, Repr

/-- Observable effects emitted while processing one transcription event. -/
inductive Action where
  | stopOutput (raised : Bool)
  | ttsInterrupted
  | dispatch (text : Str)
  | ttsStart
  | ttsComplete
deriving DecidableEq, Repr

-- Configuration / tunables (source lines 39-44).
def IGNORED_WORDS : List Str :=
  ["uh".data, "umm".data, "hmm".data, "haan".data, "like".data, "i mean".data, "mm".data]

def WAKE_WORDS : List Str :=
  ["hey agent".data, "listen".data, "stop".data, "cancel".data, "agent stop".data, "hey".data]

def MIN_CONFIDENCE : ℚ := mkRat 55 100

def PAUSE_WINDOW_SEC : ℚ := mkRat 7 10

def MIN_TOKENS_TO_INTERRUPT : Nat := 1

def TOKEN_NOISE_CLASSES : List Str :=
  ["filler".data, "noise".data, "laugh".data, "breath".data, "unk".data]

-- TTS lifecycle helpers (source lines 89-99).
def on_tts_start (st : AgentState) : AgentState :=
  { st with is_agent_speaking := true }

def on_tts_complete (st : AgentState) : AgentState :=
  { st with is_agent_speaking := false }

def on_tts_interrupted (st : AgentState) : AgentState :=
  { st with is_agent_speaking := false }

/-- Python truthiness of an optional string: `None` and `""` are falsy. -/
def str_truthy : Option Str → Bool
  | some s => !s.isEmpty
  | none => false

/-- Python `a or b` on optional strings: yields `a` when truthy, else `b`. -/
def py_or (a b : Option Str) : Option Str :=
  if str_truthy a then a else b

/-- Python `dict.get(k)`: `none` when the key is absent. -/
def dict_get (m : List (Str × Str)) (k : Str) : Option Str :=
  (m.find? fun p => p.1 == k).map Prod.snd

/-- `any(ww in lower for ww in WAKE_WORDS)` (source line 153). -/
def wake_word_hit (lower : Str) : Bool :=
  WAKE_WORDS.any fun ww => substr_of ww lower

/-- Source line 165: keep tokens whose class (default `"word"`) is not a
noise class and whose text (default `""`) is non-blank after stripping. -/
def non_noise_tokens (tokens : List Token) : List Token :=
  tokens.filter fun t =>
    !TOKEN_NOISE_CLASSES.contains (t.type.getD "word".data) &&
      !(py_strip (t.text.getD [])).isEmpty

/-- Source line 170: `" ".join(t.get("text", "") for t in non_noise_tokens).strip()`. -/
def token_text (nnt : List Token) : Str :=
  py_strip (List.intercalate " ".data (nnt.map fun t => t.text.getD []))

/-- Python truthiness of the `tokens` value: `None` and `[]` are falsy
(`if tokens:` at source line 164). -/
def tokens_truthy : Option (List Token) → Option (List Token)
  | some l => if l.isEmpty then none else some l
  | none => none

/-- Whether the token gate at source lines 164-168 lets the event through:
vacuously true when `tokens` is falsy, otherwise the non-noise token count
must reach `MIN_TOKENS_TO_INTERRUPT`. -/
def tokens_pass (tokens : Option (List Token)) : Bool :=
  match tokens_truthy tokens with
  | some toks => decide (MIN_TOKENS_TO_INTERRUPT ≤ (non_noise_tokens toks).length)
  | none => true

/-- The working text after the token block (source lines 169-172): when the
tokens are truthy and the joined non-noise token text is non-empty, it
replaces `lower`. -/
def working_lower (lower : Str) (tokens : Option (List Token)) : Str :=
  match tokens_truthy tokens with
  | some toks =>
      let tt := token_text (non_noise_tokens toks)
      if tt.isEmpty then lower else py_lower tt
  | none => lower

/-- Source lines 175-176: `len(words) > 0 and words.issubset(IGNORED_WORDS)`
(the source builds a set from `lower.split()`; subset and non-emptiness are
insensitive to duplicates, so the word list is used directly). -/
def is_filler_only (lower : Str) : Bool :=
  let words := py_split_ws lower
  !words.isEmpty && words.all fun w => IGNORED_WORDS.contains w

/-- `_handle_user_input` (source lines 211-222): dispatch the text to the
dialogue consumer, then the placeholder `_simulate_agent_reply` runs the
TTS lifecycle (`on_tts_start`; `on_tts_complete`). -/
def handle_user_input (st : AgentState) (text : Str) : AgentState × List Action :=
  let st1 := on_tts_start st
  let st2 := on_tts_complete st1
  (st2, [Action.dispatch text, Action.ttsStart, Action.ttsComplete])

/-- `_interrupt_and_handle` (source lines 202-209): attempt
`tts.stop_output()` (any exception is swallowed by the `try/except`), then
`on_tts_interrupted()`, then `_handle_user_input`. -/
def interrupt_and_handle (stopRaises : Bool) (st : AgentState) (text : Str) :
    AgentState × List Action :=
  let st1 := on_tts_interrupted st
  let res := handle_user_input st1 text
  (res.1, Action.stopOutput stopRaises :: Action.ttsInterrupted :: res.2)

/-- `on_transcription_event` (source lines 130-197).  `t1` is the value of
`time.time()` at line 143 (stored into `last_user_speech_time`), `t2` the
value at line 182 (used for `time_since_last`). -/
def on_transcription_event (stopRaises : Bool) (t1 t2 : ℚ) (st : AgentState)
    (transcript : Str) (meta : Meta) : AgentState × List Action :=
  let text := py_strip transcript
  if text.isEmpty then (st, [])
  else
    let confidence := meta.confidence.getD 1
    let tokens := meta.tokens
    let track_id := py_or meta.track_id meta.speaker_id
    let speaker :=
      if str_truthy track_id then dict_get st.track_to_participant (track_id.getD [])
      else py_or meta.participant meta.speaker
    let st := { st with
      last_user_speech_time := t1,
      active_speaker := if str_truthy speaker then speaker else st.active_speaker }
    let lower := py_lower text
    if wake_word_hit lower then
      interrupt_and_handle stopRaises st lower
    else if confidence < MIN_CONFIDENCE then
      (st, [])
    else if !tokens_pass tokens then
      (st, [])
    else
      let lower := working_lower lower tokens
      if is_filler_only lower then
        (st, [])
      else
        let time_since_last := t2 - st.last_user_speech_time
        if st.is_agent_speaking then
          if time_since_last < PAUSE_WINDOW_SEC then (st, [])
          else interrupt_and_handle stopRaises st lower
        else
          handle_user_input st lower

/-- Whether a trace contains a stop-output invocation. -/
def hasStop (tr : List Action) : Bool :=
  tr.any fun a => match a with | Action.stopOutput _ => true | _ => false

/-- Whether a trace contains a dispatch to the dialogue consumer. -/
def hasDispatch (tr : List Action) : Bool :=
  tr.any fun a => match a with | Action.dispatch _ => true | _ => false

/-- The classifier verdict "Meaningful", read off the code's path structure:
non-empty text and either a wake-phrase hit, or (confidence at or above
threshold, token gate passed, and the working text not filler-only). -/
def meaningful_verdict (transcript : Str) (meta : Meta) : Bool :=
  let lower := py_lower (py_strip transcript)
  !(py_strip transcript).isEmpty &&
    (wake_word_hit lower ||
      (!decide (meta.confidence.getD 1 < MIN_CONFIDENCE) &&
        tokens_pass meta.tokens &&
        !is_filler_only (working_lower lower meta.tokens)))

-- Concrete fixtures used by witnesses and counterexamples.
def idleSt : AgentState := ⟨false, 0, [], none⟩

def speakingSt : AgentState := ⟨true, 0, [], none⟩

def emptyMeta : Meta := ⟨none, none, none, none, none, none⟩

/-- Claim C8: an event whose text is empty or whitespace-only after trimming
is discarded — no dispatch, no stop-output, and the state is untouched —
regardless of agent state, confidence, tokens, or elapsed time. -/
theorem C8_blank_text_discarded (stopRaises : Bool) (t1 t2 : ℚ) (st : AgentState)
    (transcript : Str) (meta : Meta)
    (h : (py_strip transcript).isEmpty = true) :
    on_transcription_event stopRaises t1 t2 st transcript meta = (st, []) := by
  unfold on_transcription_event
  simp [h]

/-- Witness for C8 at a whitespace-only transcript received while speaking. -/
theorem C8_blank_text_discarded_witness :
    (py_strip "   ".data).isEmpty = true ∧
    on_transcription_event false 0 0 speakingSt "   ".data emptyMeta = (speakingSt, []) :=
  ⟨by decide, C8_blank_text_discarded false 0 0 speakingSt "   ".data emptyMeta (by decide)⟩

/-- Claim C9: the three output-lifecycle signals are idempotent and accepted
from any prior state: `on_tts_start` always lands on Speaking,
`on_tts_complete` and `on_tts_interrupted` always land on the
externally-visible Idle state, and completing twice in a row leaves Idle
both times. -/
theorem C9_lifecycle_signals_idempotent (s : AgentState) :
    (on_tts_start s).is_agent_speaking = true ∧
    (on_tts_complete s).is_agent_speaking = false ∧
    (on_tts_interrupted s).is_agent_speaking = false ∧
    (on_tts_complete (on_tts_complete s)).is_agent_speaking = false :=
  ⟨rfl, rfl, rfl, rfl⟩

/-- Claim C6: on the interrupt path, even when the stop-output call raises,
the arbiter still records the Interrupted transition and still dispatches
the text to the dialogue consumer, in that order. -/
theorem C6_failed_stop_never_blocks_dispatch (st : AgentState) (text : Str) :
    (interrupt_and_handle true st text).2 =
      [Action.stopOutput true, Action.ttsInterrupted, Action.dispatch text,
       Action.ttsStart, Action.ttsComplete] ∧
    (on_tts_interrupted st).is_agent_speaking = false :=
  ⟨rfl, rfl⟩

/-- Claim C7: an event with confidence below `MIN_CONFIDENCE` and no wake
phrase in its case-folded text is discarded — no stop-output and no
dispatch — whatever the agent state. -/
theorem C7_low_confidence_discarded (stopRaises : Bool) (t1 t2 : ℚ) (st : AgentState)
    (transcript : Str) (meta : Meta)
    (hwake : wake_word_hit (py_lower (py_strip transcript)) = false)
    (hconf : meta.confidence.getD 1 < MIN_CONFIDENCE) :
    (on_transcription_event stopRaises t1 t2 st transcript meta).2 = [] := by
  unfold on_transcription_event
  by_cases h : (py_strip transcript).isEmpty = true
  · simp [h]
  · simp [h, hwake, hconf]

/-- Witness for C7: Scenario 3 of the spec, agent idle,
"turn on the lights" at confidence 0.4. -/
theorem C7_low_confidence_discarded_witness :
    wake_word_hit (py_lower (py_strip "turn on the lights".data)) = false ∧
    (⟨some (mkRat 4 10), none, none, none, none, none⟩ : Meta).confidence.getD 1 <
      MIN_CONFIDENCE ∧
    (on_transcription_event false 0 0 idleSt "turn on the lights".data
      ⟨some (mkRat 4 10), none, none, none, none, none⟩).2 = [] :=
  ⟨by decide, by decide,
    C7_low_confidence_discarded false 0 0 idleSt "turn on the lights".data
      ⟨some (mkRat 4 10), none, none, none, none, none⟩ (by decide) (by decide)⟩

/-- Claim C4: an event whose case-folded text contains a configured wake
phrase is always handled on the interrupt path — stop-output, Interrupted
transition, then dispatch of the case-folded text — for every agent state,
every confidence (including below threshold) and every token payload. -/
theorem C4_wake_phrase_bypasses_all_gates (stopRaises : Bool) (t1 t2 : ℚ)
    (st : AgentState) (transcript : Str) (meta : Meta)
    (hwake : wake_word_hit (py_lower (py_strip transcript)) = true) :
    (on_transcription_event stopRaises t1 t2 st transcript meta).2 =
      [Action.stopOutput stopRaises, Action.ttsInterrupted,
       Action.dispatch (py_lower (py_strip transcript)),
       Action.ttsStart, Action.ttsComplete] := by
  have hne : (py_strip transcript).isEmpty = false := by
    cases hempty : py_strip transcript with
    | nil =>
        rw [hempty] at hwake
        exact absurd hwake (by decide)
    | cons a l => rfl
  unfold on_transcription_event
  simp [hne, hwake, interrupt_and_handle, handle_user_input]

/-- Witness for C4: Scenario 2 of the spec, "hey agent stop" at
confidence 0.2 while the agent is speaking. -/
theorem C4_wake_phrase_bypasses_all_gates_witness :
    wake_word_hit (py_lower (py_strip "hey agent stop".data)) = true ∧
    (on_transcription_event false 0 0 speakingSt "hey agent stop".data
      ⟨some (mkRat 2 10), none, none, none, none, none⟩).2 =
      [Action.stopOutput false, Action.ttsInterrupted,
       Action.dispatch "hey agent stop".data, Action.ttsStart, Action.ttsComplete] :=
  ⟨by decide,
    C4_wake_phrase_bypasses_all_gates false 0 0 speakingSt "hey agent stop".data
      ⟨some (mkRat 2 10), none, none, none, none, none⟩ (by decide)⟩

/-- Claim C1: while the agent is speaking, an event that is Meaningful via
the normal (non-wake-phrase) path — non-blank, no wake phrase, confidence
at or above threshold, token gate passed, not filler-only — whose elapsed
time since the last recorded user-speech update is at least
`PAUSE_WINDOW_SEC` is handled on the interrupt path: stop-output,
Interrupted transition, then dispatch of the working text.
`last_user_speech_time` is set to `t1` (the first clock reading of the same
event) before the comparison against `t2` is evaluated, which the final
state still shows. -/
theorem C1_meaningful_after_pause_interrupts (stopRaises : Bool) (t1 t2 : ℚ)
    (st : AgentState) (transcript : Str) (meta : Meta)
    (hspeak : st.is_agent_speaking = true)
    (hne : (py_strip transcript).isEmpty = false)
    (hwake : wake_word_hit (py_lower (py_strip transcript)) = false)
    (hconf : ¬ meta.confidence.getD 1 < MIN_CONFIDENCE)
    (htok : tokens_pass meta.tokens = true)
    (hfill : is_filler_only (working_lower (py_lower (py_strip transcript)) meta.tokens) = false)
    (helapsed : ¬ t2 - t1 < PAUSE_WINDOW_SEC) :
    (on_transcription_event stopRaises t1 t2 st transcript meta).2 =
      [Action.stopOutput stopRaises, Action.ttsInterrupted,
       Action.dispatch (working_lower (py_lower (py_strip transcript)) meta.tokens),
       Action.ttsStart, Action.ttsComplete] ∧
    (on_transcription_event stopRaises t1 t2 st transcript meta).1.last_user_speech_time = t1 := by
  unfold on_transcription_event
  simp [hne, hwake, hconf, htok, hfill, hspeak, helapsed,
    interrupt_and_handle, handle_user_input, on_tts_interrupted, on_tts_start, on_tts_complete]

/-- Witness for C1: "play music" at default confidence while speaking, with
one time unit elapsed between the two clock readings. -/
theorem C1_meaningful_after_pause_interrupts_witness :
    (on_transcription_event false 0 1 speakingSt "play music".data emptyMeta).2 =
      [Action.stopOutput false, Action.ttsInterrupted,
       Action.dispatch "play music".data, Action.ttsStart, Action.ttsComplete] ∧
    (on_transcription_event false 0 1 speakingSt "play music".data emptyMeta).1.last_user_speech_time = 0 :=
  C1_meaningful_after_pause_interrupts false 0 1 speakingSt "play music".data emptyMeta
    rfl (by decide) (by decide) (by decide) rfl (by decide)
    (by rw [sub_zero]; decide)

/-- Counterexample to claim C2 as stated: on the wake-phrase path the
arbiter invokes stop-output even though the agent output state is already
Idle — event "hey" received while `is_agent_speaking` is false still
produces a stop-output invocation. -/
theorem C2_counterexample :
    idleSt.is_agent_speaking = false ∧
    hasStop (on_transcription_event false 0 0 idleSt "hey".data emptyMeta).2 = true :=
  ⟨rfl, by decide⟩

/-- Amended claim C2: whenever the arbiter invokes stop-output, the agent
was speaking or the event carried a wake phrase (so the only stops issued
while Idle are wake-phrase stops), and every stop is immediately followed
by the Interrupted transition and only then by the dispatch to the
dialogue consumer. -/
theorem C2_stop_structure (stopRaises : Bool) (t1 t2 : ℚ) (st : AgentState)
    (transcript : Str) (meta : Meta)
    (hstop : hasStop (on_transcription_event stopRaises t1 t2 st transcript meta).2 = true) :
    (st.is_agent_speaking = true ∨ wake_word_hit (py_lower (py_strip transcript)) = true) ∧
    ∃ w, (on_transcription_event stopRaises t1 t2 st transcript meta).2 =
      [Action.stopOutput stopRaises, Action.ttsInterrupted, Action.dispatch w,
       Action.ttsStart, Action.ttsComplete] := by
  cases hempty : (py_strip transcript).isEmpty with
  | true => simp [on_transcription_event, hempty, hasStop] at hstop
  | false =>
    cases hwake : wake_word_hit (py_lower (py_strip transcript)) with
    | true =>
      refine ⟨Or.inr rfl, ⟨py_lower (py_strip transcript), ?_⟩⟩
      unfold on_transcription_event
      simp [hempty, hwake, interrupt_and_handle, handle_user_input]
    | false =>
      by_cases hconf : meta.confidence.getD 1 < MIN_CONFIDENCE
      · simp [on_transcription_event, hempty, hwake, hconf, hasStop] at hstop
      · cases htok : tokens_pass meta.tokens with
        | false =>
          simp [on_transcription_event, hempty, hwake, hconf, htok, hasStop] at hstop
        | true =>
          cases hfill : is_filler_only (working_lower (py_lower (py_strip transcript)) meta.tokens) with
          | true =>
            simp [on_transcription_event, hempty, hwake, hconf, htok, hfill, hasStop] at hstop
          | false =>
            cases hspeak : st.is_agent_speaking with
            | false =>
              simp [on_transcription_event, hempty, hwake, hconf, htok, hfill, hspeak,
                hasStop, handle_user_input] at hstop
            | true =>
              by_cases hel : t2 - t1 < PAUSE_WINDOW_SEC
              · simp [on_transcription_event, hempty, hwake, hconf, htok, hfill, hspeak,
                  hel, hasStop] at hstop
              · refine ⟨Or.inl rfl, ⟨working_lower (py_lower (py_strip transcript)) meta.tokens, ?_⟩⟩
                unfold on_transcription_event
                simp [hempty, hwake, hconf, htok, hfill, hspeak, hel,
                  interrupt_and_handle, handle_user_input]

/-- Witness for C2's amended theorem at the wake-phrase event "hey". -/
theorem C2_stop_structure_witness :
    (idleSt.is_agent_speaking = true ∨
      wake_word_hit (py_lower (py_strip "hey".data)) = true) ∧
    ∃ w, (on_transcription_event false 0 0 idleSt "hey".data emptyMeta).2 =
      [Action.stopOutput false, Action.ttsInterrupted, Action.dispatch w,
       Action.ttsStart, Action.ttsComplete] :=
  C2_stop_structure false 0 0 idleSt "hey".data emptyMeta (by decide)

/-- Counterexample to claim C3 as stated: the non-empty, high-confidence,
filler-only event "umm uh" received while the agent is idle is discarded
(empty trace, so no dispatch), not dispatched as a new turn — the
filler-only check at source lines 174-179 runs before the agent-state
branch. -/
theorem C3_counterexample :
    idleSt.is_agent_speaking = false ∧
    is_filler_only (py_lower (py_strip "umm uh".data)) = true ∧
    (on_transcription_event false 0 0 idleSt "umm uh".data
      ⟨some (mkRat 98 100), none, none, none, none, none⟩).2 = [] :=
  ⟨rfl, by decide, by decide⟩

/-- Amended claim C3: while the agent is idle, every event whose verdict is
Meaningful (wake-phrase or normal path) is dispatched to the dialogue
consumer as a new turn; a filler-only, non-wake event is discarded
regardless of the idle state. -/
theorem C3_idle_meaningful_dispatches (stopRaises : Bool) (t1 t2 : ℚ)
    (st : AgentState) (transcript : Str) (meta : Meta)
    (hidle : st.is_agent_speaking = false) :
    (meaningful_verdict transcript meta = true →
      hasDispatch (on_transcription_event stopRaises t1 t2 st transcript meta).2 = true) ∧
    (wake_word_hit (py_lower (py_strip transcript)) = false →
      is_filler_only (working_lower (py_lower (py_strip transcript)) meta.tokens) = true →
      (on_transcription_event stopRaises t1 t2 st transcript meta).2 = []) := by
  constructor
  · intro hm
    rw [meaningful_verdict] at hm
    simp only [Bool.and_eq_true, Bool.or_eq_true, Bool.not_eq_true'] at hm
    obtain ⟨hne, hm⟩ := hm
    cases hm with
    | inl hwake =>
      unfold on_transcription_event
      simp [hne, hwake, interrupt_and_handle, handle_user_input, hasDispatch]
    | inr hm =>
      obtain ⟨⟨hconf, htok⟩, hfill⟩ := hm
      have hconf' : ¬ meta.confidence.getD 1 < MIN_CONFIDENCE := by
        intro hlt
        rw [decide_eq_false_iff_not] at hconf
        exact hconf hlt
      cases hwake : wake_word_hit (py_lower (py_strip transcript)) with
      | true =>
        unfold on_transcription_event
        simp [hne, hwake, interrupt_and_handle, handle_user_input, hasDispatch]
      | false =>
        unfold on_transcription_event
        simp [hne, hwake, hconf', htok, hfill, hidle, handle_user_input, hasDispatch]
  · intro hwake hfill
    cases hempty : (py_strip transcript).isEmpty with
    | true => simp [on_transcription_event, hempty]
    | false =>
      by_cases hconf : meta.confidence.getD 1 < MIN_CONFIDENCE
      · simp [on_transcription_event, hempty, hwake, hconf]
      · cases htok : tokens_pass meta.tokens with
        | false => simp [on_transcription_event, hempty, hwake, hconf, htok]
        | true => simp [on_transcription_event, hempty, hwake, hconf, htok, hfill]

/-- Witness for C3's amended theorem: "okay resume now" at confidence 0.96
while idle is dispatched. -/
theorem C3_idle_meaningful_dispatches_witness :
    hasDispatch (on_transcription_event false 0 0 idleSt "okay resume now".data
      ⟨some (mkRat 96 100), none, none, none, none, none⟩).2 = true :=
  (C3_idle_meaningful_dispatches false 0 0 idleSt "okay resume now".data
    ⟨some (mkRat 96 100), none, none, none, none, none⟩ rfl).1 (by decide)

/-- Counterexample to claim C5 as stated: a token whose class is the
literal string "unknown" is NOT folded into the noise set — the configured
noise classes are {filler, noise, laugh, breath, unk} — so it survives the
non-noise filter and is counted as meaningful; end to end, an idle-state
event whose only token has class "unknown" is dispatched (with the
reconstructed text), where the claim would force a discard for falling
below the minimum meaningful-token count. -/
theorem C5_counterexample :
    non_noise_tokens [⟨some "route".data, some "unknown".data⟩] =
      [⟨some "route".data, some "unknown".data⟩] ∧
    (on_transcription_event false 0 0 idleSt "hmm".data
      ⟨some 1, some [⟨some "route".data, some "unknown".data⟩], none, none, none, none⟩).2 =
      [Action.dispatch "route".data, Action.ttsStart, Action.ttsComplete] :=
  ⟨by decide, by decide⟩

/-- Amended claim C5: a token whose class value (defaulting to "word" when
absent) is not one of the literal noise classes {filler, noise, laugh,
breath, unk} — which includes the unrecognized literal "unknown" — and
whose text is non-blank is kept by the non-noise filter, i.e. counted as
meaningful; processing is a total function, so no event ever raises. -/
theorem C5_unrecognized_class_counts_as_meaningful (toks : List Token) (t : Token)
    (hmem : t ∈ toks)
    (hcls : TOKEN_NOISE_CLASSES.contains (t.type.getD "word".data) = false)
    (htxt : (py_strip (t.text.getD [])).isEmpty = false) :
    t ∈ non_noise_tokens toks := by
  unfold non_noise_tokens
  rw [List.mem_filter]
  exact ⟨hmem, by rw [hcls, htxt]; rfl⟩

/-- Witness for C5's amended theorem at the class-"unknown" token. -/
theorem C5_unrecognized_class_counts_as_meaningful_witness :
    (⟨some "route".data, some "unknown".data⟩ : Token) ∈
      non_noise_tokens [⟨some "route".data, some "unknown".data⟩] :=
  C5_unrecognized_class_counts_as_meaningful
    [⟨some "route".data, some "unknown".data⟩] ⟨some "route".data, some "unknown".data⟩
    (List.mem_singleton.mpr rfl) (by decide) (by decide)

/-- Claim C10: tokens whose text is blank (empty or whitespace-only) are
excluded from the non-noise token list — hence from the meaningful-token
count and from the reconstructed working text — even when their class is a
non-noise class such as "word"; consequently an event carrying a non-empty
token list in which every token text is blank is discarded (empty trace)
whenever no wake phrase is present, for every confidence and agent
state. -/
theorem C10_blank_text_tokens_excluded (stopRaises : Bool) (t1 t2 : ℚ)
    (st : AgentState) (transcript : Str) (meta : Meta) (toks : List Token)
    (htoks : meta.tokens = some toks)
    (hne : toks.isEmpty = false)
    (hblank : ∀ t ∈ toks, (py_strip (t.text.getD [])).isEmpty = true)
    (hwake : wake_word_hit (py_lower (py_strip transcript)) = false) :
    non_noise_tokens toks = [] ∧
    token_text (non_noise_tokens toks) = [] ∧
    (on_transcription_event stopRaises t1 t2 st transcript meta).2 = [] := by
  have hnn : non_noise_tokens toks = [] := by
    unfold non_noise_tokens
    rw [List.filter_eq_nil_iff]
    intro t ht
    rw [hblank t ht]
    simp
  refine ⟨hnn, by rw [hnn]; rfl, ?_⟩
  have htp : tokens_pass meta.tokens = false := by
    rw [htoks]
    unfold tokens_pass tokens_truthy
    simp [hne, hnn, MIN_TOKENS_TO_INTERRUPT]
  cases hempty : (py_strip transcript).isEmpty with
  | true => simp [on_transcription_event, hempty]
  | false =>
    by_cases hconf : meta.confidence.getD 1 < MIN_CONFIDENCE
    · simp [on_transcription_event, hempty, hwake, hconf]
    · simp [on_transcription_event, hempty, hwake, hconf, htp]

/-- Witness for C10: while speaking, "hello there" at confidence 0.9 whose
single token has class "word" but whitespace-only text is discarded. -/
theorem C10_blank_text_tokens_excluded_witness :
    non_noise_tokens [⟨some "  ".data, some "word".data⟩] = [] ∧
    token_text (non_noise_tokens [⟨some "  ".data, some "word".data⟩]) = [] ∧
    (on_transcription_event false 0 0 speakingSt "hello there".data
      ⟨some (mkRat 9 10), some [⟨some "  ".data, some "word".data⟩],
        none, none, none, none⟩).2 = [] :=
  C10_blank_text_tokens_excluded false 0 0 speakingSt "hello there".data
    ⟨some (mkRat 9 10), some [⟨some "  ".data, some "word".data⟩], none, none, none, none⟩
    [⟨some "  ".data, some "word".data⟩] rfl rfl (by decide) (by decide)

end UpgradedAgent
